import Mathlib

/-!
Shallow embedding of the appointment-availability engine of the salon
booking application (`app/client/routes.py`: `get_available_times` and
`check_appointment_slot_available`, together with the data model of
`app/models/availability.py`, `app/models/appointment.py`,
`app/models/service.py`).

Time model: Python `datetime` values are minutes since midnight of day 0
of a proleptic calendar whose day 0 is a Monday (so `weekday(d) = d % 7`,
matching `date.weekday()` where Monday is 0).  A `date` is a day index
(`Nat`), a `time` is minutes within a day (`Nat`, valid when `< 1440`),
and `datetime.combine(d, t) = d * 1440 + t`.  Python `datetime` values are
never negative (the calendar starts at `datetime.min`), so `Nat` is the
faithful carrier; the one signed intermediate value in the source,
`end_datetime = combine(date, close) - duration`, is kept as an `Int`.
-/

/-- `BusinessHours` row: per weekday (0-6), open/close times and a closed
flag (`app/models/availability.py`). -/
structure BusinessHours where
  day_of_week : Nat
  open_time : Nat
  close_time : Nat
  is_closed : Bool
deriving Repr, DecidableEq

/-- `BlockedTime` row: a stylist-owned unavailability interval with a
holiday flag (`app/models/availability.py`). -/
structure BlockedTime where
  stylist_id : Nat
  start_time : Nat
  end_time : Nat
  reason : String
  is_holiday : Bool
deriving Repr, DecidableEq

/-- `Appointment` row: stylist, interval, and a status string in
\x7bscheduled, completed, cancelled, no_show\x7d (`app/models/appointment.py`). -/
structure Appointment where
  stylist_id : Nat
  start_time : Nat
  end_time : Nat
  status : String
deriving Repr, DecidableEq

/-- `Service` row: id and duration in minutes (`app/models/service.py`). -/
structure Service where
  id : Nat
  duration_minutes : Nat
deriving Repr, DecidableEq

/-- The relational store the resolver queries. -/
structure DB where
  businessHours : List BusinessHours
  blockedTimes : List BlockedTime
  appointments : List Appointment
  services : List Service
deriving Repr, DecidableEq

/-- `datetime.combine(d, t)`: minutes since the epoch. -/
def combine (d t : Nat) : Nat := d * 1440 + t

/-- Python `time(hour, minute)`: raises `ValueError` unless
`0 <= hour <= 23` and `0 <= minute <= 59`; otherwise the minutes value. -/
def pyTime (hour minute : Nat) : Except String Nat :=
  if hour ≤ 23 && minute ≤ 59 then .ok (hour * 60 + minute)
  else .error "ValueError: hour must be in 0..23"

/-- `Service.query.get(service_id)` (primary-key lookup). -/
def findServiceById (db : DB) (service_id : Nat) : Option Service :=
  db.services.find? (fun s => s.id == service_id)

/-- `BusinessHours.query.filter_by(day_of_week=day_of_week).first()`. -/
def findBusinessHours (db : DB) (day_of_week : Nat) : Option BusinessHours :=
  db.businessHours.find? (fun bh => bh.day_of_week == day_of_week)

/-- The holiday query of `get_available_times`: first `BlockedTime` of the
stylist flagged as holiday with `start_time <= combine(date, 23:59)` and
`end_time >= combine(date, 00:00)`. -/
def findHoliday (db : DB) (stylist_id selected_date : Nat) : Option BlockedTime :=
  db.blockedTimes.find? (fun b =>
    b.stylist_id == stylist_id && b.is_holiday
      && decide (b.start_time ≤ combine selected_date 1439)
      && decide (b.end_time ≥ combine selected_date 0))

/-- The blocked-time query of `get_available_times`: all `BlockedTime`
rows of the stylist with `start_time <= combine(date, 23:59)` and
`end_time >= combine(date, 00:00)` (holiday or not). -/
def blockedTimesOn (db : DB) (stylist_id selected_date : Nat) : List BlockedTime :=
  db.blockedTimes.filter (fun b =>
    b.stylist_id == stylist_id
      && decide (b.start_time ≤ combine selected_date 1439)
      && decide (b.end_time ≥ combine selected_date 0))

/-- The appointment query of `get_available_times`: all `scheduled`
appointments of the stylist whose `start_time` lies between
`combine(date, 00:00)` and `combine(date, 23:59)`.  Note the filter is on
`start_time` only. -/
def scheduledAppointmentsOn (db : DB) (stylist_id selected_date : Nat) : List Appointment :=
  db.appointments.filter (fun a =>
    a.stylist_id == stylist_id
      && decide (a.start_time ≥ combine selected_date 0)
      && decide (a.start_time ≤ combine selected_date 1439)
      && a.status == "scheduled")

/-- `next_slot_minutes = ((minutes // interval) + 1) * interval` with the
fixed `interval = 30` of the source. -/
def next_slot_minutes (minutes : Nat) : Nat := (minutes / 30 + 1) * 30

/-- `start_minutes_with_buffer = next_slot_minutes + buffer_minutes` with
the fixed `buffer_minutes = 60` of the source. -/
def start_minutes_with_buffer (minutes : Nat) : Nat := next_slot_minutes minutes + 60

/-- The per-slot availability test of the generation loop: the candidate
`[current, slot_end)` overlaps no fetched appointment and no fetched
blocked time, where overlap is `current < existing.end_time` and
`slot_end > existing.start_time`. -/
def slotAvailable (current slot_end : Nat)
    (existing_appointments : List Appointment) (blocked_times : List BlockedTime) : Bool :=
  !(existing_appointments.any fun a =>
      decide (current < a.end_time) && decide (slot_end > a.start_time)) &&
  !(blocked_times.any fun b =>
      decide (current < b.end_time) && decide (slot_end > b.start_time))

/-- The `while current_datetime <= end_datetime` loop of
`get_available_times`, with an explicit step counter.  Each iteration
appends `current` when available and advances by the fixed 30-minute
interval.  The counter only bounds the recursion: since the step is
30 ≥ 1, after `(end_datetime + 1 - start).toNat` iterations `current`
exceeds `end_datetime`, so with that initial counter (see `slotLoop`)
the loop always exits through the `current > end_datetime` test exactly
as the source loop does. -/
def slotLoopAux (existing_appointments : List Appointment) (blocked_times : List BlockedTime)
    (service_duration : Nat) (end_datetime : Int) : Nat → Nat → List Nat
  | 0, _ => []
  | fuel + 1, current =>
    if (current : Int) ≤ end_datetime then
      (if slotAvailable current (current + service_duration)
          existing_appointments blocked_times then [current] else [])
        ++ slotLoopAux existing_appointments blocked_times service_duration end_datetime
            fuel (current + 30)
    else []

/-- The slot-generation loop started at `start` (the source's
`current_datetime` initial value). -/
def slotLoop (existing_appointments : List Appointment) (blocked_times : List BlockedTime)
    (service_duration : Nat) (end_datetime : Int) (start : Nat) : List Nat :=
  slotLoopAux existing_appointments blocked_times service_duration end_datetime
    (end_datetime + 1 - (start : Int)).toNat start

/-- Outcome of the endpoint: either a rendered error/notice message or a
rendered list of available start datetimes (the machine-readable
`'datetime'` field of each entry, one entry per appended slot). -/
inductive Outcome where
  | message (msg : String)
  | slots (times : List Nat)
deriving Repr, DecidableEq

/-- The slot start times carried by an outcome: a message outcome carries
none. -/
def slotsOf : Outcome → List Nat
  | .message _ => []
  | .slots l => l

/-- The request environment of one invocation of `get_available_times`:
the store, the posted stylist/service ids, the posted date
(`none` models a string `datetime.strptime` rejects), and the current
instant `datetime.now()` in minutes since the epoch. -/
structure Env where
  db : DB
  stylist_id : Nat
  service_id : Nat
  date_input : Option Nat
  now : Nat
deriving Repr, DecidableEq

/-- The start-of-grid computation of `get_available_times`: opening time,
except that when the requested date is the current date the current time
is rounded up to the next 30-minute slot, a 60-minute buffer is added,
`time(start_hour, start_minute)` is constructed (which can raise), and
the later of that time and the opening time is taken. -/
def computeStartTime (selected_date now open_time : Nat) : Except String Nat :=
  if selected_date == now / 1440 then
    match pyTime (start_minutes_with_buffer (now % 1440) / 60)
        (start_minutes_with_buffer (now % 1440) % 60) with
    | .error e => .error e
    | .ok current_time =>
      .ok (if current_time > open_time then current_time else open_time)
  else .ok open_time

/-- The body of the `try:` block of `get_available_times`
(`app/client/routes.py`), with every Python exception surfaced as
`Except.error`: date parsing, the lookups and filters, the
current-date start-time computation (whose `time(start_hour,
start_minute)` call can raise), and the slot loop.  Branch order follows
the source: service lookup, business-day check, past-date check, holiday
check, queries, start-time computation, loop.  `end_datetime` is
`combine(date, close_time) - service_duration`. -/
def getAvailableTimesInner (env : Env) : Except String Outcome :=
  match env.date_input with
  | none => .error "ValueError: time data does not match format %Y-%m-%d"
  | some selected_date =>
    match findServiceById env.db env.service_id with
    | none => .ok (.message "Selected service not found")
    | some service =>
      match findBusinessHours env.db (selected_date % 7) with
      | none => .ok (.message "We\x27re closed on this day")
      | some business_hours =>
        if business_hours.is_closed then .ok (.message "We\x27re closed on this day")
        else if selected_date < env.now / 1440 then
          .ok (.message "Please select a future date")
        else
          match findHoliday env.db env.stylist_id selected_date with
          | some holiday => .ok (.message ("Salon closed: " ++ holiday.reason))
          | none =>
            match computeStartTime selected_date env.now business_hours.open_time with
            | .error e => .error e
            | .ok start_time =>
              .ok (.slots (slotLoop
                (scheduledAppointmentsOn env.db env.stylist_id selected_date)
                (blockedTimesOn env.db env.stylist_id selected_date)
                service.duration_minutes
                ((combine selected_date business_hours.close_time : Int)
                  - (service.duration_minutes : Int))
                (combine selected_date start_time)))

/-- `get_available_times` as observed by the caller: the `except
Exception` handler at the end of the function converts any raised
exception into the generic error message. -/
def getAvailableTimes (env : Env) : Outcome :=
  match getAvailableTimesInner env with
  | .ok o => o
  | .error _ => .message "An error occurred. Please try again."

/-- The conflicting blocked-time query of `check_appointment_slot_available`:
first `BlockedTime` of the stylist with `start_time < end_time` and
`end_time > start_time` of the candidate. -/
def findConflictingBlockedTime (db : DB) (stylist_id start_time end_time : Nat) :
    Option BlockedTime :=
  db.blockedTimes.find? (fun b =>
    b.stylist_id == stylist_id
      && decide (b.start_time < end_time)
      && decide (b.end_time > start_time))

/-- The conflicting appointment query of `check_appointment_slot_available`:
first `scheduled` appointment of the stylist with `start_time < end_time`
and `end_time > start_time` of the candidate. -/
def findConflictingAppointment (db : DB) (stylist_id start_time end_time : Nat) :
    Option Appointment :=
  db.appointments.find? (fun a =>
    a.stylist_id == stylist_id
      && a.status == "scheduled"
      && decide (a.start_time < end_time)
      && decide (a.end_time > start_time))

/-- `check_appointment_slot_available(stylist_id, start_time, end_time)`
(`app/client/routes.py`): business-day lookup by the weekday of
`start_time`, fail-closed on missing/closed hours, business-hours bounds
check, then the two conflict queries. -/
def check_appointment_slot_available (db : DB) (stylist_id start_time end_time : Nat) : Bool :=
  let day_of_week := (start_time / 1440) % 7
  match findBusinessHours db day_of_week with
  | none => false
  | some business_hours =>
    if business_hours.is_closed then false
    else
      let open_datetime := combine (start_time / 1440) business_hours.open_time
      let close_datetime := combine (start_time / 1440) business_hours.close_time
      if start_time < open_datetime || end_time > close_datetime then false
      else
        match findConflictingBlockedTime db stylist_id start_time end_time with
        | some _ => false
        | none =>
          match findConflictingAppointment db stylist_id start_time end_time with
          | some _ => false
          | none => true

/-- A store with one Monday business-hours row 09:00-17:00, one 60-minute
service, and nothing else.  Day 7 of the calendar is a Monday
(`7 % 7 = 0`); `combine 7 540 = 10620` is 09:00 on that day. -/
def dbMonday : DB :=
  { businessHours := [⟨0, 540, 1020, false⟩],
    blockedTimes := [], appointments := [], services := [⟨1, 60⟩] }

/-- Request for day 7 (a Monday) against `dbMonday`, made on day 0, so the
requested date is not the current date. -/
def env1 : Env :=
  { db := dbMonday, stylist_id := 1, service_id := 1, date_input := some 7, now := 0 }

/-- A scheduled appointment of stylist 1 from 23:00 of day 6 to 10:00 of
day 7: it starts before day 7 and ends during it. -/
def apptC2 : Appointment := ⟨1, 10020, 10680, "scheduled"⟩

/-- `env1` with `apptC2` in the store. -/
def envC2 : Env :=
  { db := { dbMonday with appointments := [apptC2] },
    stylist_id := 1, service_id := 1, date_input := some 7, now := 0 }

/-- A scheduled appointment of stylist 1 from 10:00 to 11:00 of day 7
(its `start_time` lies within day 7). -/
def apptInDay : Appointment := ⟨1, 10680, 10740, "scheduled"⟩

/-- The store of `dbMonday` with `apptInDay`. -/
def dbInDay : DB := { dbMonday with appointments := [apptInDay] }

/-- `env1` with `apptInDay` in the store. -/
def envInDay : Env :=
  { db := dbInDay, stylist_id := 1, service_id := 1, date_input := some 7, now := 0 }

/-- Request for day 7 against `dbMonday` made on day 7 at 14:05
(`7 * 1440 + 845 = 10925`). -/
def env4 : Env :=
  { db := dbMonday, stylist_id := 1, service_id := 1, date_input := some 7, now := 10925 }

/-- A holiday block of stylist 1 covering all of day 7. -/
def holidayBlock : BlockedTime := ⟨1, 10080, 11520, "New Year", true⟩

/-- Request for day 7 against `dbMonday` with `holidayBlock` in the
store. -/
def envHoliday : Env :=
  { db := { dbMonday with blockedTimes := [holidayBlock] },
    stylist_id := 1, service_id := 1, date_input := some 7, now := 0 }

/-- Request for day 7 against `dbMonday` made on day 7 at 22:30
(`7 * 1440 + 1350 = 11430`). -/
def env10 : Env :=
  { db := dbMonday, stylist_id := 1, service_id := 1, date_input := some 7, now := 11430 }

/-- A cancelled appointment of stylist 1 from 09:00 to 11:00 of day 7,
overlapping the whole morning grid. -/
def apptCancelled : Appointment := ⟨1, 10620, 10740, "cancelled"⟩

/-- The environment `env` with one extra appointment row in the store. -/
def withAppointment (env : Env) (a : Appointment) : Env :=
  { env with db := { env.db with appointments := a :: env.db.appointments } }

/-! ## Helper lemmas about the slot-generation loop -/

lemma mem_slotLoopAux {appts : List Appointment} {blocks : List BlockedTime}
    {dur : Nat} {endDT : Int} {fuel current t : Nat}
    (h : t ∈ slotLoopAux appts blocks dur endDT fuel current) :
    (t : Int) ≤ endDT ∧ slotAvailable t (t + dur) appts blocks = true := by
  induction fuel generalizing current with
  | zero => simp [slotLoopAux] at h
  | succ n ih =>
    rw [slotLoopAux] at h
    split at h
    · rcases List.mem_append.mp h with h1 | h2
      · split at h1
        · simp only [List.mem_singleton] at h1
          subst h1
          constructor
          · assumption
          · assumption
        · simp at h1
      · exact ih h2
    · simp at h

lemma mem_slotLoop {appts : List Appointment} {blocks : List BlockedTime}
    {dur : Nat} {endDT : Int} {start t : Nat}
    (h : t ∈ slotLoop appts blocks dur endDT start) :
    (t : Int) ≤ endDT ∧ slotAvailable t (t + dur) appts blocks = true :=
  mem_slotLoopAux h

/-- Inversion for a returned slot: a start time can only come out of the
final `.slots` branch, so the date parsed, the service and business hours
were found, no holiday matched, the slot end fits before closing, and the
slot passed the per-slot availability test against the fetched rows. -/
lemma slots_mem_structure (env : Env) (t : Nat)
    (h : t ∈ slotsOf (getAvailableTimes env)) :
    ∃ d service business_hours,
      env.date_input = some d ∧
      findServiceById env.db env.service_id = some service ∧
      findBusinessHours env.db (d % 7) = some business_hours ∧
      findHoliday env.db env.stylist_id d = none ∧
      (t : Int) ≤ (combine d business_hours.close_time : Int) - (service.duration_minutes : Int) ∧
      slotAvailable t (t + service.duration_minutes)
        (scheduledAppointmentsOn env.db env.stylist_id d)
        (blockedTimesOn env.db env.stylist_id d) = true := by
  unfold getAvailableTimes getAvailableTimesInner at h
  split at h
  case h_2 => simp [slotsOf] at h
  rename_i o hmatch
  split at hmatch
  · exact absurd hmatch (by simp)
  rename_i d hd
  split at hmatch
  · cases hmatch; simp [slotsOf] at h
  rename_i service hs
  split at hmatch
  · cases hmatch; simp [slotsOf] at h
  rename_i business_hours hb
  split at hmatch
  · cases hmatch; simp [slotsOf] at h
  split at hmatch
  · cases hmatch; simp [slotsOf] at h
  split at hmatch
  · cases hmatch; simp [slotsOf] at h
  rename_i hh
  split at hmatch
  · exact absurd hmatch (by simp)
  rename_i start_time hstart
  cases hmatch
  simp only [slotsOf] at h
  have hm := mem_slotLoop h
  exact ⟨d, service, business_hours, hd, hs, hb, hh, hm.1, hm.2⟩

/-! ## Claims -/

/-- C1 (corrected): in the Monday 09:00-17:00 scenario with a 60-minute
service, no blocks and no appointments, on a non-current date, the claim
asserts the returned sequence has 16 entries; it has 15 (09:00 through
16:00 at 30-minute steps). -/
theorem C1_counterexample : (slotsOf (getAvailableTimes env1)).length ≠ 16 := by decide

/-- C1 (amended): in that scenario the returned slots are exactly 09:00,
09:30, ..., 16:00 of the requested day at 30-minute steps, 15 entries. -/
theorem C1_grid_slots :
    getAvailableTimes env1
      = .slots ((List.range 15).map (fun k => combine 7 (540 + 30 * k))) ∧
    (slotsOf (getAvailableTimes env1)).length = 15 := by
  constructor
  · decide
  · decide

/-- C7 (confirmed): every start time returned by the slot listing
satisfies `start + service_duration ≤ combine(date, close_time)` for the
business hours of that day. -/
theorem C7_slot_end_within_close (env : Env) (d t : Nat)
    (service : Service) (business_hours : BusinessHours)
    (hd : env.date_input = some d)
    (hs : findServiceById env.db env.service_id = some service)
    (hb : findBusinessHours env.db (d % 7) = some business_hours)
    (ht : t ∈ slotsOf (getAvailableTimes env)) :
    t + service.duration_minutes ≤ combine d business_hours.close_time := by
  obtain ⟨d2, s2, b2, hd2, hs2, hb2, _, hle, _⟩ := slots_mem_structure env t ht
  rw [hd] at hd2
  cases hd2
  rw [hs] at hs2
  cases hs2
  rw [hb] at hb2
  cases hb2
  omega

/-- Witness for C7 at the Monday scenario: slot 09:00 of day 7 with the
60-minute service ends by 17:00. -/
theorem C7_witness : 10620 + 60 ≤ combine 7 1020 :=
  C7_slot_end_within_close env1 7 10620 ⟨1, 60⟩ ⟨0, 540, 1020, false⟩
    rfl rfl rfl (by decide)

/-- C2 (counterexample): `apptC2` is a scheduled appointment of the
stylist that starts on day 6 and ends at 10:00 of the requested day 7; it
overlaps the candidate `[09:00, 10:00)` (`combine 7 540 = 10620`), yet
the listing still returns 09:00, because the appointment query only
fetches appointments whose `start_time` lies within the requested day. -/
theorem C2_counterexample :
    apptC2 ∈ envC2.db.appointments ∧
    apptC2.stylist_id = envC2.stylist_id ∧
    apptC2.status = "scheduled" ∧
    10620 < apptC2.end_time ∧
    apptC2.start_time < 10620 + 60 ∧
    10620 ∈ slotsOf (getAvailableTimes envC2) := by
  refine ⟨by decide, by decide, by decide, by decide, by decide, by decide⟩

/-- C2 (amended): a candidate start is excluded for every scheduled
appointment of the stylist that overlaps it under the half-open test,
provided the appointment's `start_time` lies within the requested date
(between `combine(date, 00:00)` and `combine(date, 23:59)`). -/
theorem C2_overlap_within_day_excluded (env : Env) (d t : Nat)
    (service : Service) (a : Appointment)
    (hd : env.date_input = some d)
    (hs : findServiceById env.db env.service_id = some service)
    (ha : a ∈ env.db.appointments)
    (hsty : a.stylist_id = env.stylist_id)
    (hstat : a.status = "scheduled")
    (hin1 : combine d 0 ≤ a.start_time)
    (hin2 : a.start_time ≤ combine d 1439)
    (hov1 : t < a.end_time)
    (hov2 : a.start_time < t + service.duration_minutes) :
    t ∉ slotsOf (getAvailableTimes env) := by
  intro ht
  obtain ⟨d2, s2, b2, hd2, hs2, _, _, _, hav⟩ := slots_mem_structure env t ht
  rw [hd] at hd2
  cases hd2
  rw [hs] at hs2
  cases hs2
  have hmem : a ∈ scheduledAppointmentsOn env.db env.stylist_id d := by
    unfold scheduledAppointmentsOn
    refine List.mem_filter.mpr ⟨ha, ?_⟩
    simp [hsty, hstat, hin1, hin2]
  unfold slotAvailable at hav
  simp only [Bool.and_eq_true, Bool.not_eq_true', List.any_eq_false] at hav
  have hcontra := hav.1 a hmem
  simp only [Bool.and_eq_true, decide_eq_true_eq] at hcontra
  omega

/-- Witness for the amended C2: the 10:00-11:00 scheduled appointment of
day 7 excludes the 09:30 candidate (`combine 7 570 = 10650`, whose
60-minute slot would end 10:30). -/
theorem C2_witness : 10650 ∉ slotsOf (getAvailableTimes envInDay) :=
  C2_overlap_within_day_excluded envInDay 7 10650 ⟨1, 60⟩ apptInDay
    rfl rfl (by decide) (by decide) (by decide) (by decide) (by decide)
    (by decide) (by decide)

/-- C6 (confirmed): if some holiday-flagged blocked time of the stylist
covers any part of the requested date (it overlaps
`[combine(date, 00:00), combine(date + 1, 00:00))`), the listing returns
no slot start times at all, whatever the service and the rest of the
store. -/
theorem C6_holiday_no_slots (env : Env) (d : Nat) (b : BlockedTime)
    (hd : env.date_input = some d)
    (hb : b ∈ env.db.blockedTimes)
    (hsty : b.stylist_id = env.stylist_id)
    (hhol : b.is_holiday = true)
    (hov1 : b.start_time < combine (d + 1) 0)
    (hov2 : combine d 0 < b.end_time) :
    slotsOf (getAvailableTimes env) = [] := by
  rcases hres : slotsOf (getAvailableTimes env) with _ | ⟨t, rest⟩
  · rfl
  · exfalso
    have ht : t ∈ slotsOf (getAvailableTimes env) := by rw [hres]; exact List.mem_cons_self t rest
    obtain ⟨d2, _, _, hd2, _, _, hh, _, _⟩ := slots_mem_structure env t ht
    rw [hd] at hd2
    cases hd2
    unfold findHoliday at hh
    have hnone := List.find?_eq_none.mp hh b hb
    simp only [Bool.and_eq_true, beq_iff_eq, decide_eq_true_eq, not_and] at hnone
    unfold combine at hov1 hov2
    have h1 : b.start_time ≤ combine d 1439 := by unfold combine; omega
    have h2 : b.end_time ≥ combine d 0 := by unfold combine; omega
    exact absurd h2 (hnone ⟨⟨hsty, hhol⟩, h1⟩)

/-- Witness for C6: a holiday block covering all of day 7 empties the
listing for day 7. -/
theorem C6_witness : slotsOf (getAvailableTimes envHoliday) = [] :=
  C6_holiday_no_slots envHoliday 7 holidayBlock rfl (by decide) (by decide)
    (by decide) (by decide) (by decide)

/-- C8 (confirmed): the caller always receives an ordinary outcome: either
the computation of the `try:` body finished and its outcome is returned
unchanged, or it raised, and the caller receives the generic error
message, which carries no slots. -/
theorem C8_no_exception_escapes (env : Env) :
    (∃ o, getAvailableTimesInner env = .ok o ∧ getAvailableTimes env = o) ∨
    (∃ e, getAvailableTimesInner env = .error e ∧
      getAvailableTimes env = .message "An error occurred. Please try again." ∧
      slotsOf (getAvailableTimes env) = []) := by
  cases h : getAvailableTimesInner env with
  | ok o =>
    left
    exact ⟨o, rfl, by unfold getAvailableTimes; rw [h]⟩
  | error e =>
    right
    refine ⟨e, rfl, ?_, ?_⟩
    · unfold getAvailableTimes
      rw [h]
    · unfold getAvailableTimes
      rw [h]
      rfl

/-- With no fetched appointments and no fetched blocked times, the loop
started at a grid point that fits before `end_datetime` returns that
point first. -/
lemma slotLoop_head_nil (dur : Nat) (endDT : Int) (start : Nat)
    (h : (start : Int) ≤ endDT) :
    (slotLoop [] [] dur endDT start).head? = some start := by
  unfold slotLoop
  have hk : (endDT + 1 - (start : Int)).toNat
      = ((endDT + 1 - (start : Int)).toNat - 1) + 1 := by omega
  rw [hk, slotLoopAux]
  rw [if_pos h]
  simp [slotAvailable]

/-- On the current date, when the buffered start is a valid time of day
and not earlier than opening, the start of the grid is the buffered
start. -/
lemma computeStartTime_today (d now open_time : Nat)
    (htoday : now / 1440 = d)
    (hlt : start_minutes_with_buffer (now % 1440) ≤ 1439)
    (hopen : open_time ≤ start_minutes_with_buffer (now % 1440)) :
    computeStartTime d now open_time = .ok (start_minutes_with_buffer (now % 1440)) := by
  unfold computeStartTime
  rw [htoday]
  simp only [beq_self_eq_true, if_true]
  have hp : pyTime (start_minutes_with_buffer (now % 1440) / 60)
      (start_minutes_with_buffer (now % 1440) % 60)
      = .ok (start_minutes_with_buffer (now % 1440)) := by
    unfold pyTime
    have h1 : start_minutes_with_buffer (now % 1440) / 60 ≤ 23 := by omega
    have h2 : start_minutes_with_buffer (now % 1440) % 60 ≤ 59 := by omega
    rw [if_pos (by simp [h1, h2])]
    congr 1
    omega
  rw [hp]
  show Except.ok (if start_minutes_with_buffer (now % 1440) > open_time
      then start_minutes_with_buffer (now % 1440) else open_time)
    = Except.ok (start_minutes_with_buffer (now % 1440))
  by_cases hc : start_minutes_with_buffer (now % 1440) > open_time
  · rw [if_pos hc]
  · rw [if_neg hc]
    have heq : open_time = start_minutes_with_buffer (now % 1440) := by omega
    rw [heq]

/-- C4 (confirmed): requesting the current date at 14:05 (current time
845 minutes), with the salon open, opening no later than 15:30, the
15:30 slot fitting before closing, and no blocks or appointments, the
earliest returned slot is 15:30 (`combine d 930`): 14:05 rounds up to
14:30 and the fixed 60-minute buffer is added. -/
theorem C4_today_1405_earliest_1530 (env : Env) (d : Nat)
    (service : Service) (business_hours : BusinessHours)
    (hd : env.date_input = some d)
    (hnow : env.now = d * 1440 + 845)
    (hs : findServiceById env.db env.service_id = some service)
    (hb : findBusinessHours env.db (d % 7) = some business_hours)
    (hcl : business_hours.is_closed = false)
    (hnb : env.db.blockedTimes = [])
    (hna : env.db.appointments = [])
    (hopen : business_hours.open_time ≤ 930)
    (hfit : 930 + service.duration_minutes ≤ business_hours.close_time) :
    (slotsOf (getAvailableTimes env)).head? = some (combine d 930) := by
  have hdiv : env.now / 1440 = d := by rw [hnow]; omega
  have hmod : env.now % 1440 = 845 := by rw [hnow]; omega
  have hbuf : start_minutes_with_buffer 845 = 930 := by decide
  have hhol : findHoliday env.db env.stylist_id d = none := by
    unfold findHoliday
    rw [hnb]
    rfl
  have hstart : computeStartTime d env.now business_hours.open_time = .ok 930 := by
    rw [show (930 : Nat) = start_minutes_with_buffer (env.now % 1440) by rw [hmod, hbuf]]
    exact computeStartTime_today d env.now business_hours.open_time hdiv
      (by rw [hmod, hbuf]; omega) (by rw [hmod, hbuf]; omega)
  have happts : scheduledAppointmentsOn env.db env.stylist_id d = [] := by
    unfold scheduledAppointmentsOn
    rw [hna]
    rfl
  have hblocks : blockedTimesOn env.db env.stylist_id d = [] := by
    unfold blockedTimesOn
    rw [hnb]
    rfl
  unfold getAvailableTimes getAvailableTimesInner
  rw [hd]
  simp only [hs, hb, hcl, Bool.false_eq_true, if_false, hdiv, lt_self_iff_false,
    hhol, hstart, happts, hblocks, slotsOf]
  exact slotLoop_head_nil service.duration_minutes _ _ (by unfold combine; push_cast; omega)

/-- Witness for C4: day 7 requested on day 7 at 14:05 against the Monday
09:00-17:00 store; the earliest slot is 15:30 of day 7. -/
theorem C4_witness : (slotsOf (getAvailableTimes env4)).head? = some (combine 7 930) :=
  C4_today_1405_earliest_1530 env4 7 ⟨1, 60⟩ ⟨0, 540, 1020, false⟩
    rfl rfl rfl rfl rfl rfl rfl (by decide) (by decide)

/-- C9 (confirmed): when the current time of day is already on a
30-minute boundary, the rounding step still advances to the strictly
next boundary, so the computed earliest candidate is the current time
plus 90 minutes, not plus 60. -/
theorem C9_aligned_boundary_adds_90 (d now open_time : Nat)
    (htoday : now / 1440 = d)
    (hal : now % 1440 % 30 = 0)
    (hlt : now % 1440 + 90 ≤ 1439)
    (hopen : open_time ≤ now % 1440 + 90) :
    computeStartTime d now open_time = .ok (now % 1440 + 90) ∧
    start_minutes_with_buffer (now % 1440) = now % 1440 + 90 := by
  have hb : start_minutes_with_buffer (now % 1440) = now % 1440 + 90 := by
    unfold start_minutes_with_buffer next_slot_minutes
    omega
  refine ⟨?_, hb⟩
  rw [show now % 1440 + 90 = start_minutes_with_buffer (now % 1440) from hb.symm]
  exact computeStartTime_today d now open_time htoday (by omega) (by omega)

/-- Witness for C9: on day 7 at exactly 14:00 (current instant 10920),
the computed start is 15:30, i.e. 840 + 90 minutes. -/
theorem C9_witness :
    computeStartTime 7 10920 540 = .ok (10920 % 1440 + 90) ∧
    start_minutes_with_buffer (10920 % 1440) = 10920 % 1440 + 90 :=
  C9_aligned_boundary_adds_90 7 10920 540 (by decide) (by decide) (by decide) (by decide)

/-- C10 (confirmed): a current-date request at 22:30 or later that
reaches slot generation (service found, open business day, no holiday)
computes a buffered start hour of at least 24, so `time()` raises and
the handler returns the generic error outcome with no slots. -/
theorem C10_late_today_generic_error (env : Env) (d : Nat)
    (service : Service) (business_hours : BusinessHours)
    (hd : env.date_input = some d)
    (hdiv : env.now / 1440 = d)
    (hlate : 1350 ≤ env.now % 1440)
    (hs : findServiceById env.db env.service_id = some service)
    (hb : findBusinessHours env.db (d % 7) = some business_hours)
    (hcl : business_hours.is_closed = false)
    (hhol : findHoliday env.db env.stylist_id d = none) :
    24 ≤ start_minutes_with_buffer (env.now % 1440) / 60 ∧
    getAvailableTimes env = .message "An error occurred. Please try again." ∧
    slotsOf (getAvailableTimes env) = [] := by
  have h24 : 24 ≤ start_minutes_with_buffer (env.now % 1440) / 60 := by
    unfold start_minutes_with_buffer next_slot_minutes
    omega
  have hpy : pyTime (start_minutes_with_buffer (env.now % 1440) / 60)
      (start_minutes_with_buffer (env.now % 1440) % 60)
      = .error "ValueError: hour must be in 0..23" := by
    unfold pyTime
    rw [if_neg]
    simp only [Bool.and_eq_true, decide_eq_true_eq, not_and]
    intro hx
    omega
  have hstart : computeStartTime d env.now business_hours.open_time
      = .error "ValueError: hour must be in 0..23" := by
    unfold computeStartTime
    rw [hdiv]
    simp only [beq_self_eq_true, if_true, hpy]
  have hmsg : getAvailableTimes env = .message "An error occurred. Please try again." := by
    unfold getAvailableTimes getAvailableTimesInner
    rw [hd]
    simp only [hs, hb, hcl, Bool.false_eq_true, if_false, hdiv, lt_self_iff_false, hhol, hstart]
  exact ⟨h24, hmsg, by rw [hmsg]; rfl⟩

/-- Witness for C10: day 7 requested on day 7 at 22:30 against the Monday
store yields the generic error outcome. -/
theorem C10_witness :
    24 ≤ start_minutes_with_buffer (env10.now % 1440) / 60 ∧
    getAvailableTimes env10 = .message "An error occurred. Please try again." ∧
    slotsOf (getAvailableTimes env10) = [] :=
  C10_late_today_generic_error env10 7 ⟨1, 60⟩ ⟨0, 540, 1020, false⟩
    rfl rfl (by decide) rfl rfl rfl rfl

/-- C3 (confirmed): for a candidate interval within the day's business
hours, `check_appointment_slot_available` is true exactly when every
blocked time of the stylist and every scheduled appointment of the
stylist is disjoint from `[start, end)` or merely touches it at a
boundary; equivalently it is false exactly when some such row satisfies
`existing.start < end` and `existing.end > start`. -/
theorem C3_half_open_iff (db : DB) (stylist_id start_time end_time : Nat)
    (business_hours : BusinessHours)
    (hb : findBusinessHours db (start_time / 1440 % 7) = some business_hours)
    (hcl : business_hours.is_closed = false)
    (hopen : combine (start_time / 1440) business_hours.open_time ≤ start_time)
    (hclose : end_time ≤ combine (start_time / 1440) business_hours.close_time) :
    check_appointment_slot_available db stylist_id start_time end_time = true ↔
      ((∀ b ∈ db.blockedTimes, b.stylist_id = stylist_id →
          b.end_time ≤ start_time ∨ end_time ≤ b.start_time) ∧
       (∀ a ∈ db.appointments, a.stylist_id = stylist_id → a.status = "scheduled" →
          a.end_time ≤ start_time ∨ end_time ≤ a.start_time)) := by
  unfold check_appointment_slot_available
  simp only []
  rw [hb]
  simp only [hcl, Bool.false_eq_true, if_false]
  rw [if_neg (by
    simp only [Bool.or_eq_true, decide_eq_true_eq, not_or, not_lt]
    exact ⟨hopen, hclose⟩)]
  rcases hbl : findConflictingBlockedTime db stylist_id start_time end_time with _ | b
  · rcases hap : findConflictingAppointment db stylist_id start_time end_time with _ | a
    · unfold findConflictingBlockedTime at hbl
      unfold findConflictingAppointment at hap
      apply iff_of_true rfl
      constructor
      · intro b hbmem hbsty
        have hnp := List.find?_eq_none.mp hbl b hbmem
        simp only [Bool.and_eq_true, beq_iff_eq, decide_eq_true_eq, not_and] at hnp
        by_contra hcon
        push_neg at hcon
        exact hnp ⟨hbsty, by omega⟩ (by omega)
      · intro a hamem hasty hastat
        have hnp := List.find?_eq_none.mp hap a hamem
        simp only [Bool.and_eq_true, beq_iff_eq, decide_eq_true_eq, not_and] at hnp
        by_contra hcon
        push_neg at hcon
        exact hnp ⟨⟨hasty, hastat⟩, by omega⟩ (by omega)
    · apply iff_of_false (by simp)
      intro ⟨_, h2⟩
      unfold findConflictingAppointment at hap
      have hmem := List.mem_of_find?_eq_some hap
      have hpred := List.find?_some hap
      simp only [Bool.and_eq_true, beq_iff_eq, decide_eq_true_eq] at hpred
      rcases h2 a hmem hpred.1.1.1 hpred.1.1.2 with h | h
      · omega
      · omega
  · apply iff_of_false (by simp)
    intro ⟨h1, _⟩
    unfold findConflictingBlockedTime at hbl
    have hmem := List.mem_of_find?_eq_some hbl
    have hpred := List.find?_some hbl
    simp only [Bool.and_eq_true, beq_iff_eq, decide_eq_true_eq] at hpred
    rcases h1 b hmem hpred.1.1 with h | h
    · omega
    · omega

/-- Witness for C3: against `dbInDay` (scheduled 10:00-11:00 on day 7),
the candidate 09:00-10:00 of day 7 touches it only at the boundary and
is available. -/
theorem C3_witness : check_appointment_slot_available dbInDay 1 10620 10680 = true :=
  (C3_half_open_iff dbInDay 1 10620 10680 ⟨0, 540, 1020, false⟩
    rfl rfl (by decide) (by decide)).mpr (by decide)

/-- C5 (confirmed): an appointment whose status is cancelled, completed,
or no_show never occupies time: adding such a row to the store changes
neither the boolean slot check (for any stylist and candidate interval)
nor the outcome of the slot listing (for any request). -/
theorem C5_inactive_status_never_occupies (env : Env) (db : DB) (a : Appointment)
    (stylist_id start_time end_time : Nat)
    (hstat : a.status = "cancelled" ∨ a.status = "completed" ∨ a.status = "no_show") :
    check_appointment_slot_available { db with appointments := a :: db.appointments }
        stylist_id start_time end_time
      = check_appointment_slot_available db stylist_id start_time end_time ∧
    getAvailableTimes (withAppointment env a) = getAvailableTimes env := by
  have hne : (a.status == "scheduled") = false := by
    rcases hstat with h | h | h <;> simp [h]
  constructor
  · have e3 : findConflictingAppointment { db with appointments := a :: db.appointments }
        stylist_id start_time end_time
        = findConflictingAppointment db stylist_id start_time end_time := by
      unfold findConflictingAppointment
      simp only []
      rw [List.find?_cons_of_neg]
      simp [hne]
    unfold check_appointment_slot_available
    simp only []
    rw [show findBusinessHours { db with appointments := a :: db.appointments }
        = findBusinessHours db from rfl]
    rw [show findConflictingBlockedTime { db with appointments := a :: db.appointments }
        = findConflictingBlockedTime db from rfl]
    rw [e3]
  · have e4 : scheduledAppointmentsOn { env.db with appointments := a :: env.db.appointments }
        = scheduledAppointmentsOn env.db := by
      funext sid d
      unfold scheduledAppointmentsOn
      simp only []
      rw [List.filter_cons_of_neg]
      simp [hne]
    unfold getAvailableTimes getAvailableTimesInner withAppointment
    simp only []
    rw [show findServiceById { env.db with appointments := a :: env.db.appointments }
        = findServiceById env.db from rfl]
    rw [show findBusinessHours { env.db with appointments := a :: env.db.appointments }
        = findBusinessHours env.db from rfl]
    rw [show findHoliday { env.db with appointments := a :: env.db.appointments }
        = findHoliday env.db from rfl]
    rw [show blockedTimesOn { env.db with appointments := a :: env.db.appointments }
        = blockedTimesOn env.db from rfl]
    rw [e4]

/-- Witness for C5: adding the cancelled 09:00-11:00 appointment of day 7
changes neither the 09:00-10:00 slot check nor the day-7 listing. -/
theorem C5_witness :
    check_appointment_slot_available { dbMonday with appointments := apptCancelled :: dbMonday.appointments } 1 10620 10680
      = check_appointment_slot_available dbMonday 1 10620 10680 ∧
    getAvailableTimes (withAppointment env1 apptCancelled) = getAvailableTimes env1 :=
  C5_inactive_status_never_occupies env1 dbMonday apptCancelled 1 10620 10680 (Or.inl rfl)
